import Mathlib

/-!
Shallow embedding of the front-end script `static/js/main.js` of the
weather-destination search app, centred on the `DistanceCircleManager`
class (the distance-radius map control), the `/search` form-submission
flow, and the debounced location-autocomplete input.

Conventions of the embedding:
* JavaScript numbers are modelled as real numbers `ℝ`.
* The Leaflet map is modelled by the list of circle overlays currently
  added to it (`mapCircles`) plus a flag for the handle marker; layers get
  fresh numeric ids so `removeLayer` can be expressed as a filter.
* DOM writes (`slider.value`, `valueDisplay.textContent`, the handle
  tooltip) are recorded as fields of the state.
* Fallible behaviour is absent from the source (all functions are total
  and throw nothing), which the embedding mirrors with total functions.
-/

open Real

/-- A latitude/longitude pair in degrees (the `{lat, lng}` objects of the
script). -/
structure GeoPoint where
  lat : ℝ
  lng : ℝ

/-- JavaScript `Math.atan2(y, x)`: the angle of the point `(x, y)` in
`(-π, π]`, with `atan2 0 0 = 0` (signed zeros are not modelled). -/
noncomputable def atan2 (y x : ℝ) : ℝ :=
  if 0 < x then Real.arctan (y / x)
  else if x < 0 then
    if 0 ≤ y then Real.arctan (y / x) + π else Real.arctan (y / x) - π
  else
    if 0 < y then π / 2 else if y < 0 then -(π / 2) else 0

/-- The handle coordinates computed by
`DistanceCircleManager.updateHandlePosition` (main.js lines 260-269): the
spherical direct-geodesic destination from the centre at bearing
`angleRad = π/2` (3 o'clock), Earth radius `6378137` metres and distance
`radius * 1609.34` metres, converted degrees→radians on the way in and
radians→degrees on the way out. -/
noncomputable def handleLatLng (center : GeoPoint) (radius : ℝ) : GeoPoint :=
  let angleRad := π / 2
  let earthRadius : ℝ := 6378137
  let d := radius * 1609.34
  let lat1 := center.lat * π / 180
  let lng1 := center.lng * π / 180
  let lat2 := Real.arcsin (Real.sin lat1 * Real.cos (d / earthRadius) +
    Real.cos lat1 * Real.sin (d / earthRadius) * Real.cos angleRad)
  let lng2 := lng1 + atan2 (Real.sin angleRad * Real.sin (d / earthRadius) * Real.cos lat1)
    (Real.cos (d / earthRadius) - Real.sin lat1 * Real.sin lat2)
  { lat := lat2 * 180 / π, lng := lng2 * 180 / π }

/-- The destination point as the specification words it ("given center
latitude/longitude in radians, a distance `d` in meters, mean Earth radius
`R`, and bearing `θ`: destination latitude
`asin(sin(lat)·cos(d/R) + cos(lat)·sin(d/R)·cos(θ))`, destination
longitude `lon + atan2(sin(θ)·sin(d/R)·cos(lat),
cos(d/R) − sin(lat)·sin(lat2))`"), in radians. -/
noncomputable def specDestination (lat lng d R θ : ℝ) : GeoPoint :=
  let lat2 := Real.arcsin (Real.sin lat * Real.cos (d / R) +
    Real.cos lat * Real.sin (d / R) * Real.cos θ)
  let lng2 := lng + atan2 (Real.sin θ * Real.sin (d / R) * Real.cos lat)
    (Real.cos (d / R) - Real.sin lat * Real.sin lat2)
  { lat := lat2, lng := lng2 }

/-- Modelled from the spec: the inverse great-circle distance used by
`onHandleDrag`. The call `centerLatLng.distanceTo(handleLatLng)` goes to
the external map library, whose code is not part of this repository; the
spec describes it as the "mean-Earth-radius spherical approximation",
"haversine or equivalent", the "consistent counterpart" of the forward
formula, whose Earth radius the spec fixes at `R = 6378137`. So: the
haversine distance in metres on a sphere of radius 6378137, taking
degree inputs. -/
noncomputable def haversineMeters (p q : GeoPoint) : ℝ :=
  let R : ℝ := 6378137
  let phi1 := p.lat * π / 180
  let phi2 := q.lat * π / 180
  let dphi := (q.lat - p.lat) * π / 180
  let dlam := (q.lng - p.lng) * π / 180
  let a := Real.sin (dphi / 2) ^ 2 +
    Real.cos phi1 * Real.cos phi2 * Real.sin (dlam / 2) ^ 2
  let c := 2 * atan2 (Real.sqrt a) (Real.sqrt (1 - a))
  R * c

/-- A circle overlay added to the map by `L.circle(...).addTo(map)`:
its layer id, its centre and its radius in metres. -/
structure CircleLayer where
  id : ℕ
  center : GeoPoint
  radiusMeters : ℝ

/-- The joint state of the map and one `DistanceCircleManager` instance:
the circle overlays on the map, a fresh-id counter for layers, the
manager fields (`circle`, `center`, `radius`, `handleMarker`,
`isDragging`), whether the handle marker is currently added to the map,
its tooltip (interpolated value and literal suffix of the template), the
listener registration made by `setupMapEvents`, and the two DOM fields
written by `updateFormSlider`. -/
structure World where
  mapCircles : List CircleLayer
  nextId : ℕ
  circle : Option ℕ
  center : Option GeoPoint
  radius : ℝ
  handleMarker : Option GeoPoint
  handleOnMap : Bool
  handleTooltip : Option (ℝ × String)
  isDragging : Bool
  mapListenersOn : Bool
  sliderValue : ℝ
  displayValue : ℝ

namespace DistanceCircleManager

/-- The state right after `new DistanceCircleManager(map)` on a fresh map:
the constructor sets `circle = null`, `center = null`, `radius = 200`
miles, `handleMarker = null`, `isDragging = false`, and `init()` registers
the map listeners via `setupMapEvents`. -/
def initWorld : World :=
  { mapCircles := []
    nextId := 0
    circle := none
    center := none
    radius := 200
    handleMarker := none
    handleOnMap := false
    handleTooltip := none
    isDragging := false
    mapListenersOn := true
    sliderValue := 200
    displayValue := 200 }

/-- `updateCircle` (main.js lines 246-256): early-return when no centre;
otherwise remove the old circle layer (if any) and add a fresh
`L.circle([center.lat, center.lng], {radius: radius * 1609.34, ...})`. -/
def updateCircle (w : World) : World :=
  match w.center with
  | none => w
  | some c =>
    let circles := match w.circle with
      | none => w.mapCircles
      | some cid => w.mapCircles.filter (fun l => l.id != cid)
    { w with
        mapCircles := { id := w.nextId, center := c, radiusMeters := w.radius * 1609.34 } :: circles
        circle := some w.nextId
        nextId := w.nextId + 1 }

/-- `updateHandlePosition` (main.js lines 258-296): early-return when no
centre; otherwise compute the handle point (see `handleLatLng`), create
the draggable marker on first call or move it afterwards, and set the
tooltip to the interpolation of `this.radius` with the literal
`" miles"`. -/
noncomputable def updateHandlePosition (w : World) : World :=
  match w.center with
  | none => w
  | some c =>
    let pos := handleLatLng c w.radius
    match w.handleMarker with
    | none =>
      { w with
          handleMarker := some pos
          handleOnMap := true
          handleTooltip := some (w.radius, " miles") }
    | some _ =>
      { w with
          handleMarker := some pos
          handleTooltip := some (w.radius, " miles") }

/-- `updateFormSlider` (main.js lines 307-312): write `this.radius` into
the `distance` slider and the `distanceValue` display. -/
def updateFormSlider (w : World) : World :=
  { w with sliderValue := w.radius, displayValue := w.radius }

/-- `setRadius` (main.js lines 239-244): store the argument as is, then
redraw the circle, reposition the handle and sync the form field. -/
noncomputable def setRadius (w : World) (radius : ℝ) : World :=
  updateFormSlider (updateHandlePosition (updateCircle { w with radius := radius }))

/-- `setCenter` (main.js lines 233-237): store `{lat, lng}` as the centre,
then redraw the circle and reposition the handle. -/
noncomputable def setCenter (w : World) (lat lng : ℝ) : World :=
  updateHandlePosition (updateCircle { w with center := some { lat := lat, lng := lng } })

/-- `onHandleDrag` (main.js lines 298-305): early-return when no centre;
otherwise read the dragged position, take the map library distance from
the centre in metres, round `meters / 1609.34` to whole miles, clamp with
`Math.max(1, Math.min(200, miles))` and call `setRadius`. -/
noncomputable def onHandleDrag (w : World) (handle : GeoPoint) : World :=
  match w.center with
  | none => w
  | some c =>
    let meters := haversineMeters { lat := c.lat, lng := c.lng } handle
    let miles : ℤ := round (meters / 1609.34)
    setRadius w (max 1 (min 200 (miles : ℝ)))

/-- `hide` (main.js lines 314-317): remove the circle layer and the handle
marker from the map; the manager keeps both references. -/
def hide (w : World) : World :=
  let circles := match w.circle with
    | none => w.mapCircles
    | some cid => w.mapCircles.filter (fun l => l.id != cid)
  { w with
      mapCircles := circles
      handleOnMap := match w.handleMarker with
        | none => w.handleOnMap
        | some _ => false }

/-- `destroy` (main.js lines 319-322): `hide()` then unregister the
`zoom move resize` listeners. -/
def destroy (w : World) : World :=
  { hide w with mapListenersOn := false }

/-- The operations the surrounding application can perform on the
control: the public mutators, a handle drag, a map pan/zoom/resize (which
fires `updateHandlePosition` through the listener), `hide` and
`destroy`. -/
inductive Op where
  | setCenterOp (lat lng : ℝ)
  | setRadiusOp (r : ℝ)
  | handleDragOp (p : GeoPoint)
  | mapViewChangedOp
  | hideOp
  | destroyOp

/-- Run one operation. -/
noncomputable def runOp (w : World) : Op → World
  | .setCenterOp lat lng => setCenter w lat lng
  | .setRadiusOp r => setRadius w r
  | .handleDragOp p => onHandleDrag w p
  | .mapViewChangedOp => updateHandlePosition w
  | .hideOp => hide w
  | .destroyOp => destroy w

/-- Run a sequence of operations from left to right. -/
noncomputable def runOps (w : World) (ops : List Op) : World :=
  ops.foldl runOp w

/-- Structural part of the circle invariant: the map holds at most one
circle layer, and any such layer is the one the manager references. -/
def circleStructure (w : World) : Prop :=
  w.mapCircles = [] ∨ ∃ l, w.mapCircles = [l] ∧ w.circle = some l.id

/-- The circle overlays are well formed: `circleStructure` holds, and any
circle layer on the map is drawn at the current centre with radius
`radius * 1609.34` metres. -/
def circlesWellFormed (w : World) : Prop :=
  circleStructure w ∧
  ∀ l ∈ w.mapCircles, w.center = some l.center ∧ l.radiusMeters = w.radius * 1609.34

end DistanceCircleManager

/-!  The `/search` submission flow of `setupFormSubmission`
(main.js lines 437-497) together with `Utils.clearResults`
(lines 79-98). -/

/-- Outcome of the single `fetch('/search', ...)` of one submission: a
successful response with parsed data (summarised by the two destination
counts), a non-OK HTTP status (the handler throws on `!response.ok`), a
network failure of the fetch itself, or the 10s abort timeout. -/
inductive SearchOutcome where
  | ok (sunnyCount comfortCount : ℕ)
  | httpError (status : ℕ)
  | networkError
  | timeout

/-- The page state the submission handler touches: the messages rendered
in the `results` panel, the result markers currently on the map, and the
`isLoading` flag. -/
structure SearchPanelState where
  messages : List String
  markers : List ℕ
  isLoading : Bool
  deriving Repr, DecidableEq

/-- `Utils.clearResults`: empty the results panel and remove every result
marker from the map. -/
def clearResults (s : SearchPanelState) : SearchPanelState :=
  { s with messages := [], markers := [] }

/-- The user-visible message of the catch branch: the `AbortError` text
for the timeout, the generic text otherwise. -/
def fetchErrorMessage : SearchOutcome → String
  | .timeout => "Request timed out. Please try again."
  | _ => "An error occurred while searching for destinations. Please try again."

/-- One run of the submit handler, returning the new state and the number
of `/search` requests it issued. Guard on `isLoading`; then
`showLoading(true)`, `clearResults()`, a single fetch; on success either
the no-data message or the rendered results with one marker per displayed
destination; on any failure the error message; finally
`showLoading(false)`. -/
def submitSearch (s : SearchPanelState) (outcome : SearchOutcome) :
    SearchPanelState × ℕ :=
  if s.isLoading then (s, 0)
  else
    let s1 := clearResults { s with isLoading := true }
    let s2 := match outcome with
      | .ok sunny _ =>
        if sunny = 0 then
          { s1 with messages := ["No destinations found within your criteria."] }
        else
          { s1 with messages := ["results"], markers := List.range sunny }
      | .httpError st => { s1 with messages := [fetchErrorMessage (.httpError st)] }
      | .networkError => { s1 with messages := [fetchErrorMessage .networkError] }
      | .timeout => { s1 with messages := [fetchErrorMessage .timeout] }
    ({ s2 with isLoading := false }, 1)

/-- Whether the outcome is one of the failure cases of claim C7. -/
def SearchOutcome.isFailure : SearchOutcome → Prop
  | .ok _ _ => False
  | _ => True

/-!  The debounced autocomplete of `setupLocationAutocomplete`
(main.js lines 340-399). -/

/-- An `input` event on the `from` field: its time in milliseconds and the
field text passed to the debounced search. -/
abbrev InputEvent := ℕ × String

/-- Which input events' timers fire, for a time-sorted event list: each
call to the debounced function clears the pending timer and arms a new
300ms one, so an event's callback runs exactly when no further event
arrives within `DEBOUNCE_DELAY = 300` ms (the last event always fires). -/
def debounceFires : List InputEvent → List InputEvent
  | [] => []
  | [e] => [e]
  | e :: f :: rest =>
    if f.1 < e.1 + 300 then debounceFires (f :: rest)
    else e :: debounceFires (f :: rest)

/-- The `GET /location-suggest` requests issued: the fired callback
returns before fetching when `query.length < 2`. -/
def suggestRequests (events : List InputEvent) : List InputEvent :=
  (debounceFires events).filter (fun e => 2 ≤ e.2.length)

/-!  Method resolution facts for claim C10. -/

/-- The method names defined by `class DistanceCircleManager`
(main.js lines 213-323), in source order. -/
def distanceCircleManagerMethods : List String :=
  ["constructor", "init", "setupMapEvents", "setCenter", "setRadius",
   "updateCircle", "updateHandlePosition", "onHandleDrag",
   "updateFormSlider", "hide", "destroy"]

/-- The methods `displayResults` (main.js lines 547-549) invokes on
`AppState.distanceCircleManager` when the manager exists and its centre
is set; the empty list otherwise. -/
def displayResultsManagerCalls (centerSet : Bool) : List String :=
  if centerSet then ["show"] else []

/-- The methods `switchTab` (main.js lines 577-579) invokes on
`AppState.distanceCircleManager` when the manager exists and its centre
is set; the empty list otherwise. -/
def switchTabManagerCalls (centerSet : Bool) : List String :=
  if centerSet then ["show"] else []

/-!  Component lemmas about the state machine. -/

namespace DistanceCircleManager

lemma updateCircle_of_center_none {w : World} (h : w.center = none) :
    updateCircle w = w := by
  simp [updateCircle, h]

lemma updateHandlePosition_of_center_none {w : World} (h : w.center = none) :
    updateHandlePosition w = w := by
  simp [updateHandlePosition, h]

lemma updateCircle_radius (w : World) : (updateCircle w).radius = w.radius := by
  unfold updateCircle
  split <;> rfl

lemma updateCircle_center (w : World) : (updateCircle w).center = w.center := by
  unfold updateCircle
  split <;> rfl

lemma updateCircle_handleMarker (w : World) :
    (updateCircle w).handleMarker = w.handleMarker := by
  unfold updateCircle
  split <;> rfl

lemma updateCircle_handleOnMap (w : World) :
    (updateCircle w).handleOnMap = w.handleOnMap := by
  unfold updateCircle
  split <;> rfl

lemma updateCircle_of_center_some {w : World} {c : GeoPoint} (h : w.center = some c)
    (hs : circleStructure w) :
    (updateCircle w).mapCircles =
      [{ id := w.nextId, center := c, radiusMeters := w.radius * 1609.34 }] ∧
    (updateCircle w).circle = some w.nextId := by
  have hrest : (match w.circle with
      | none => w.mapCircles
      | some cid => w.mapCircles.filter (fun l => l.id != cid)) = [] := by
    rcases hs with hnil | ⟨l, hl, hcirc⟩
    · cases w.circle <;> simp [hnil]
    · rw [hcirc, hl]
      simp
  refine ⟨?_, ?_⟩ <;> simp only [updateCircle, h, hrest]

lemma updateHandlePosition_fields (w : World) :
    (updateHandlePosition w).mapCircles = w.mapCircles ∧
    (updateHandlePosition w).circle = w.circle ∧
    (updateHandlePosition w).center = w.center ∧
    (updateHandlePosition w).radius = w.radius ∧
    (updateHandlePosition w).nextId = w.nextId ∧
    (updateHandlePosition w).sliderValue = w.sliderValue ∧
    (updateHandlePosition w).displayValue = w.displayValue := by
  rcases w with ⟨mc, ni, ci, ce, r, hm, hom, ht, dr, lo, sv, dv⟩
  cases ce <;> cases hm <;> exact ⟨rfl, rfl, rfl, rfl, rfl, rfl, rfl⟩

lemma updateHandlePosition_handle_of_center_some {w : World} {c : GeoPoint}
    (h : w.center = some c) :
    (updateHandlePosition w).handleMarker = some (handleLatLng c w.radius) ∧
    (updateHandlePosition w).handleTooltip = some (w.radius, " miles") := by
  cases hm : w.handleMarker <;> simp [updateHandlePosition, h, hm]

lemma updateFormSlider_fields (w : World) :
    (updateFormSlider w).mapCircles = w.mapCircles ∧
    (updateFormSlider w).circle = w.circle ∧
    (updateFormSlider w).center = w.center ∧
    (updateFormSlider w).radius = w.radius ∧
    (updateFormSlider w).handleMarker = w.handleMarker ∧
    (updateFormSlider w).sliderValue = w.radius ∧
    (updateFormSlider w).displayValue = w.radius :=
  ⟨rfl, rfl, rfl, rfl, rfl, rfl, rfl⟩

lemma setRadius_radius (w : World) (r : ℝ) : (setRadius w r).radius = r := by
  unfold setRadius
  rw [(updateFormSlider_fields _).2.2.2.1, (updateHandlePosition_fields _).2.2.2.1,
    updateCircle_radius]

lemma setRadius_slider (w : World) (r : ℝ) :
    (setRadius w r).sliderValue = r ∧ (setRadius w r).displayValue = r := by
  unfold setRadius
  constructor
  · rw [(updateFormSlider_fields _).2.2.2.2.2.1, (updateHandlePosition_fields _).2.2.2.1,
      updateCircle_radius]
  · rw [(updateFormSlider_fields _).2.2.2.2.2.2, (updateHandlePosition_fields _).2.2.2.1,
      updateCircle_radius]

lemma setRadius_of_center_none {w : World} (h : w.center = none) (r : ℝ) :
    setRadius w r =
      { w with radius := r, sliderValue := r, displayValue := r } := by
  have h' : ({ w with radius := r } : World).center = none := h
  unfold setRadius
  rw [updateCircle_of_center_none h', updateHandlePosition_of_center_none h']
  rfl

lemma setCenter_center (w : World) (lat lng : ℝ) :
    (setCenter w lat lng).center = some { lat := lat, lng := lng } := by
  unfold setCenter
  rw [(updateHandlePosition_fields _).2.2.1, updateCircle_center]

lemma setCenter_radius (w : World) (lat lng : ℝ) :
    (setCenter w lat lng).radius = w.radius := by
  unfold setCenter
  rw [(updateHandlePosition_fields _).2.2.2.1, updateCircle_radius]

lemma setCenter_mapCircles {w : World} (hs : circleStructure w) (lat lng : ℝ) :
    (setCenter w lat lng).mapCircles =
      [{ id := w.nextId, center := { lat := lat, lng := lng },
         radiusMeters := w.radius * 1609.34 }] := by
  unfold setCenter
  rw [(updateHandlePosition_fields _).1]
  exact (updateCircle_of_center_some
    (w := { w with center := some { lat := lat, lng := lng } })
    (c := { lat := lat, lng := lng }) rfl hs).1

lemma setCenter_handleMarker (w : World) (lat lng : ℝ) :
    (setCenter w lat lng).handleMarker =
      some (handleLatLng { lat := lat, lng := lng } w.radius) := by
  unfold setCenter
  have h := (updateHandlePosition_handle_of_center_some
    (w := updateCircle { w with center := some { lat := lat, lng := lng } })
    (c := { lat := lat, lng := lng }) (by rw [updateCircle_center])).1
  rw [h, updateCircle_radius]

end DistanceCircleManager

namespace DistanceCircleManager

lemma wf_congr {w w' : World} (h1 : w'.mapCircles = w.mapCircles)
    (h2 : w'.circle = w.circle) (h3 : w'.center = w.center)
    (h4 : w'.radius = w.radius) :
    circlesWellFormed w → circlesWellFormed w' := by
  rintro ⟨hs, hall⟩
  refine ⟨?_, ?_⟩
  · unfold circleStructure at hs ⊢
    rw [h1, h2]
    exact hs
  · intro l hl
    rw [h1] at hl
    rw [h3, h4]
    exact hall l hl

lemma wf_updateCircle_of_center_some {w : World} {c : GeoPoint}
    (h : w.center = some c) (hs : circleStructure w) :
    circlesWellFormed (updateCircle w) := by
  obtain ⟨hmap, hcirc⟩ := updateCircle_of_center_some h hs
  refine ⟨Or.inr ⟨_, hmap, by rw [hcirc]⟩, ?_⟩
  intro l hl
  rw [hmap] at hl
  simp only [List.mem_singleton] at hl
  subst hl
  exact ⟨by rw [updateCircle_center, h], by rw [updateCircle_radius]⟩

lemma wf_updateHandlePosition {w : World} (hw : circlesWellFormed w) :
    circlesWellFormed (updateHandlePosition w) := by
  obtain ⟨f1, f2, f3, f4, _⟩ := updateHandlePosition_fields w
  exact wf_congr f1 f2 f3 f4 hw

lemma wf_updateFormSlider {w : World} (hw : circlesWellFormed w) :
    circlesWellFormed (updateFormSlider w) :=
  wf_congr rfl rfl rfl rfl hw

lemma mapCircles_nil_of_center_none {w : World} (hw : circlesWellFormed w)
    (hc : w.center = none) : w.mapCircles = [] := by
  rcases hw.1 with h | ⟨l, hl, _⟩
  · exact h
  · exfalso
    have := (hw.2 l (by rw [hl]; exact List.mem_singleton_self l)).1
    rw [hc] at this
    exact Option.noConfusion this

lemma wf_redraw {w : World} (hs : circleStructure w)
    (hn : w.center = none → w.mapCircles = []) :
    circlesWellFormed (updateFormSlider (updateHandlePosition (updateCircle w))) := by
  rcases hc : w.center with _ | c
  · rw [updateCircle_of_center_none hc, updateHandlePosition_of_center_none hc]
    refine wf_updateFormSlider ⟨Or.inl (hn hc), ?_⟩
    intro l hl
    rw [hn hc] at hl
    exact absurd hl (List.not_mem_nil l)
  · exact wf_updateFormSlider (wf_updateHandlePosition
      (wf_updateCircle_of_center_some hc hs))

lemma wf_setRadius {w : World} (hw : circlesWellFormed w) (r : ℝ) :
    circlesWellFormed (setRadius w r) := by
  unfold setRadius
  refine wf_redraw ?_ ?_
  · exact hw.1
  · intro hc
    exact mapCircles_nil_of_center_none (w := w) hw hc

lemma wf_setCenter {w : World} (hs : circleStructure w) (lat lng : ℝ) :
    circlesWellFormed (setCenter w lat lng) := by
  unfold setCenter
  exact wf_updateHandlePosition (wf_updateCircle_of_center_some rfl hs)

lemma hide_mapCircles_nil {w : World} (hw : circlesWellFormed w) :
    (hide w).mapCircles = [] := by
  show (match w.circle with
    | none => w.mapCircles
    | some cid => w.mapCircles.filter (fun l => l.id != cid)) = []
  rcases hw.1 with hnil | ⟨l, hl, hcirc⟩
  · cases w.circle <;> simp [hnil]
  · rw [hcirc, hl]
    simp

lemma wf_hide {w : World} (hw : circlesWellFormed w) :
    circlesWellFormed (hide w) := by
  refine ⟨Or.inl (hide_mapCircles_nil hw), ?_⟩
  intro l hl
  rw [hide_mapCircles_nil hw] at hl
  exact absurd hl (List.not_mem_nil l)

lemma wf_destroy {w : World} (hw : circlesWellFormed w) :
    circlesWellFormed (destroy w) :=
  wf_congr rfl rfl rfl rfl (wf_hide hw)

lemma wf_onHandleDrag {w : World} (hw : circlesWellFormed w) (p : GeoPoint) :
    circlesWellFormed (onHandleDrag w p) := by
  unfold onHandleDrag
  rcases hc : w.center with _ | c
  · exact hw
  · exact wf_setRadius hw _

lemma wf_runOp {w : World} (hw : circlesWellFormed w) (op : Op) :
    circlesWellFormed (runOp w op) := by
  cases op with
  | setCenterOp lat lng => exact wf_setCenter hw.1 lat lng
  | setRadiusOp r => exact wf_setRadius hw r
  | handleDragOp p => exact wf_onHandleDrag hw p
  | mapViewChangedOp => exact wf_updateHandlePosition hw
  | hideOp => exact wf_hide hw
  | destroyOp => exact wf_destroy hw

lemma wf_initWorld : circlesWellFormed initWorld := by
  refine ⟨Or.inl rfl, ?_⟩
  intro l hl
  exact absurd hl (List.not_mem_nil l)

lemma wf_runOps (ops : List Op) :
    ∀ w : World, circlesWellFormed w → circlesWellFormed (runOps w ops) := by
  induction ops with
  | nil => intro w hw; exact hw
  | cons op t ih =>
    intro w hw
    show circlesWellFormed ((op :: t).foldl runOp w)
    rw [List.foldl_cons]
    exact ih _ (wf_runOp hw op)

lemma length_le_one_of_wf {w : World} (hw : circlesWellFormed w) :
    w.mapCircles.length ≤ 1 := by
  rcases hw.1 with hnil | ⟨l, hl, _⟩
  · rw [hnil]; exact Nat.zero_le 1
  · rw [hl]; exact Nat.le_refl 1

end DistanceCircleManager

/-!  Lemmas about the debounced autocomplete. -/

lemma mem_of_mem_debounceFires :
    ∀ (evs : List InputEvent) (e : InputEvent), e ∈ debounceFires evs → e ∈ evs
  | [], e, h => by simp [debounceFires] at h
  | [a], e, h => by simpa [debounceFires] using h
  | a :: b :: rest, e, h => by
    simp only [debounceFires] at h
    by_cases hb : b.1 < a.1 + 300
    · rw [if_pos hb] at h
      exact List.mem_cons_of_mem a (mem_of_mem_debounceFires (b :: rest) e h)
    · rw [if_neg hb] at h
      rcases List.mem_cons.mp h with h1 | h2
      · exact h1 ▸ List.mem_cons_self a (b :: rest)
      · exact List.mem_cons_of_mem a (mem_of_mem_debounceFires (b :: rest) e h2)

lemma debounceFires_gap :
    ∀ (evs : List InputEvent), evs.Pairwise (fun x y => x.1 < y.1) →
      ∀ e ∈ debounceFires evs, ∀ f ∈ evs, e.1 < f.1 → e.1 + 300 ≤ f.1
  | [], _, e, he, f, hf, _ => absurd he (List.not_mem_nil e)
  | [a], _, e, he, f, hf, hlt => by
    simp only [debounceFires, List.mem_singleton] at he hf
    subst he
    subst hf
    exact absurd hlt (lt_irrefl _)
  | a :: b :: rest, hp, e, he, f, hf, hlt => by
    have hp' : (b :: rest).Pairwise (fun x y => x.1 < y.1) :=
      (List.pairwise_cons.mp hp).2
    have ha : ∀ x ∈ b :: rest, a.1 < x.1 := (List.pairwise_cons.mp hp).1
    simp only [debounceFires] at he
    by_cases hb : b.1 < a.1 + 300
    · rw [if_pos hb] at he
      have hmem : e ∈ b :: rest := mem_of_mem_debounceFires _ e he
      rcases List.mem_cons.mp hf with rfl | hf'
      · exact absurd (lt_trans hlt (ha e hmem)) (lt_irrefl _)
      · exact debounceFires_gap (b :: rest) hp' e he f hf' hlt
    · rw [if_neg hb] at he
      push_neg at hb
      rcases List.mem_cons.mp he with rfl | he'
      · rcases List.mem_cons.mp hf with rfl | hf'
        · exact absurd hlt (lt_irrefl _)
        · rcases List.mem_cons.mp hf' with rfl | hf''
          · exact hb
          · exact le_trans hb (le_of_lt ((List.pairwise_cons.mp hp').1 f hf''))
      · have hmem : e ∈ b :: rest := mem_of_mem_debounceFires _ e he'
        rcases List.mem_cons.mp hf with rfl | hf'
        · exact absurd (lt_trans hlt (ha e hmem)) (lt_irrefl _)
        · exact debounceFires_gap (b :: rest) hp' e he' f hf' hlt

/-!  Claim theorems (non-geometric claims). -/

open DistanceCircleManager

/-- Claim C1 counterexample: `setRadius(500)` stores 500, not the claimed
clamped value `max(1, min(200, round(500))) = 200` — `setRadius` performs
no clamping at all. -/
theorem c1_counterexample :
    (setRadius initWorld 500).radius = 500 ∧
    (500 : ℝ) ≠ max 1 (min 200 ((round (500 : ℝ) : ℤ) : ℝ)) := by
  refine ⟨setRadius_radius _ _, ?_⟩
  rw [round_ofNat]
  push_cast
  rw [min_eq_left (by norm_num), max_eq_right (by norm_num)]
  norm_num

/-- Claim C1 (amended): `setRadius(r)` stores the argument unchanged — no
rounding and no clamping to `[1, 200]` happen inside `setRadius` — and
the stored (unclamped) value is what is written back into the bound form
slider and its display; the `max(1, min(200, round(·)))` clamp exists
only on the drag path (`onHandleDrag`), before `setRadius` is called. -/
theorem c1_amended_setRadius_stores_raw (w : World) (r : ℝ) :
    (setRadius w r).radius = r ∧
    (setRadius w r).sliderValue = r ∧
    (setRadius w r).displayValue = r :=
  ⟨setRadius_radius w r, (setRadius_slider w r).1, (setRadius_slider w r).2⟩

/-- Claim C2 counterexample: `setCenter(100, 200)` — latitude 100 outside
`[-90, 90]`, longitude 200 outside `[-180, 180]` — is not rejected and
produces no `InvalidCoordinate` error: the out-of-range point is stored
as the centre, the circle is drawn and the handle is placed. -/
theorem c2_counterexample :
    (setCenter initWorld 100 200).center = some { lat := 100, lng := 200 } ∧
    (setCenter initWorld 100 200).mapCircles.length = 1 ∧
    (setCenter initWorld 100 200).handleMarker ≠ none := by
  refine ⟨setCenter_center _ _ _, ?_, ?_⟩
  · rw [setCenter_mapCircles (Or.inl rfl) 100 200]
    rfl
  · rw [setCenter_handleMarker]
    exact Option.some_ne_none _

/-- Claim C2 (amended): `setCenter` performs no range validation and has
no error path: for every latitude/longitude pair — in range or not — it
stores the point as the centre, redraws the circle at the current radius
around it, and repositions the handle. -/
theorem c2_amended_setCenter_accepts_all (w : World) (lat lng : ℝ) :
    (setCenter w lat lng).center = some { lat := lat, lng := lng } ∧
    (∃ rest, (setCenter w lat lng).mapCircles =
      { id := w.nextId, center := { lat := lat, lng := lng },
        radiusMeters := w.radius * 1609.34 } :: rest) ∧
    (setCenter w lat lng).handleMarker =
      some (handleLatLng { lat := lat, lng := lng } w.radius) := by
  refine ⟨setCenter_center w lat lng, ?_, setCenter_handleMarker w lat lng⟩
  unfold setCenter
  rw [(updateHandlePosition_fields _).1]
  exact ⟨_, rfl⟩

/-- Claim C6: over every operation sequence from a fresh control, at most
one circle overlay is on the map, any circle present is centred on the
current centre with radius `radius * 1609.34` metres, and a second
`setCenter` with a different point fully replaces the circle of the
first: exactly one circle remains, centred on the second point. -/
theorem c6_single_circle (ops : List Op) (lat1 lng1 lat2 lng2 : ℝ)
    (hne : ({ lat := lat1, lng := lng1 } : GeoPoint) ≠ { lat := lat2, lng := lng2 }) :
    ((runOps initWorld ops).mapCircles.length ≤ 1 ∧
      ∀ l ∈ (runOps initWorld ops).mapCircles,
        (runOps initWorld ops).center = some l.center ∧
        l.radiusMeters = (runOps initWorld ops).radius * 1609.34) ∧
    (setCenter (setCenter (runOps initWorld ops) lat1 lng1) lat2 lng2).mapCircles =
      [{ id := (setCenter (runOps initWorld ops) lat1 lng1).nextId,
         center := { lat := lat2, lng := lng2 },
         radiusMeters := (setCenter (runOps initWorld ops) lat1 lng1).radius * 1609.34 }] := by
  have hw := wf_runOps ops initWorld wf_initWorld
  refine ⟨⟨length_le_one_of_wf hw, hw.2⟩, ?_⟩
  have hw1 := wf_setCenter hw.1 lat1 lng1
  exact setCenter_mapCircles hw1.1 lat2 lng2

/-- Claim C6 witness: the invariant instantiated on the concrete sequence
`setRadius 50` followed by `setCenter` London then `setCenter` Paris. -/
theorem c6_witness :
    (((runOps initWorld [Op.setRadiusOp 50]).mapCircles.length ≤ 1 ∧
      ∀ l ∈ (runOps initWorld [Op.setRadiusOp 50]).mapCircles,
        (runOps initWorld [Op.setRadiusOp 50]).center = some l.center ∧
        l.radiusMeters = (runOps initWorld [Op.setRadiusOp 50]).radius * 1609.34) ∧
    (setCenter (setCenter (runOps initWorld [Op.setRadiusOp 50]) 51.5074 (-0.1278))
        48.8566 2.3522).mapCircles =
      [{ id := (setCenter (runOps initWorld [Op.setRadiusOp 50]) 51.5074 (-0.1278)).nextId,
         center := { lat := 48.8566, lng := 2.3522 },
         radiusMeters :=
           (setCenter (runOps initWorld [Op.setRadiusOp 50]) 51.5074 (-0.1278)).radius
             * 1609.34 }]) :=
  c6_single_circle [Op.setRadiusOp 50] 51.5074 (-0.1278) 48.8566 2.3522 (by
    intro h
    have hlat := congrArg GeoPoint.lat h
    norm_num at hlat)

/-- Claim C7 counterexample: on a failed `/search` submission the map
state from before the submission is not left intact: `clearResults`
runs before the fetch, so a pre-existing result marker is removed and is
still gone after the network error. -/
theorem c7_counterexample :
    (submitSearch { messages := [], markers := [7], isLoading := false }
        SearchOutcome.networkError).1.markers = [] ∧
    ([] : List ℕ) ≠ [7] := by
  exact ⟨rfl, by simp⟩

/-- Claim C7 (amended): every failed `/search` submission (HTTP error,
network error or timeout) surfaces exactly one user-visible error message
and is abandoned without automatic retry (exactly one request is issued);
however, the submission removes the previous result markers via
`clearResults` before the fetch, so on failure the pre-submission markers
are not preserved — the results area ends up cleared except for the error
message, and loading is reset. -/
theorem c7_amended_failure_clears_markers (s : SearchPanelState)
    (outcome : SearchOutcome) (h1 : s.isLoading = false)
    (h2 : outcome.isFailure) :
    (submitSearch s outcome).2 = 1 ∧
    (submitSearch s outcome).1.messages = [fetchErrorMessage outcome] ∧
    (submitSearch s outcome).1.markers = [] ∧
    (submitSearch s outcome).1.isLoading = false := by
  cases outcome with
  | ok a b => exact h2.elim
  | httpError st =>
    refine ⟨?_, ?_, ?_, ?_⟩ <;> simp [submitSearch, clearResults, h1]
  | networkError =>
    refine ⟨?_, ?_, ?_, ?_⟩ <;> simp [submitSearch, clearResults, h1]
  | timeout =>
    refine ⟨?_, ?_, ?_, ?_⟩ <;> simp [submitSearch, clearResults, h1]

/-- Claim C7 witness: the timeout case on a concrete prior state with one
marker and no load in flight. -/
theorem c7_witness :
    (submitSearch { messages := ["old"], markers := [3], isLoading := false }
        SearchOutcome.timeout).2 = 1 ∧
    (submitSearch { messages := ["old"], markers := [3], isLoading := false }
        SearchOutcome.timeout).1.messages = [fetchErrorMessage SearchOutcome.timeout] ∧
    (submitSearch { messages := ["old"], markers := [3], isLoading := false }
        SearchOutcome.timeout).1.markers = [] ∧
    (submitSearch { messages := ["old"], markers := [3], isLoading := false }
        SearchOutcome.timeout).1.isLoading = false :=
  c7_amended_failure_clears_markers _ SearchOutcome.timeout rfl trivial

/-- Claim C8 counterexample: calling `setCenter` while no centre has been
set is not a visual no-op: starting from the fresh state (whose centre is
`null`) it creates the circle overlay and the handle marker. -/
theorem c8_counterexample :
    initWorld.center = none ∧
    (setCenter initWorld 51.5074 (-0.1278)).mapCircles.length = 1 ∧
    (setCenter initWorld 51.5074 (-0.1278)).handleMarker ≠ none := by
  refine ⟨rfl, ?_, ?_⟩
  · rw [setCenter_mapCircles (Or.inl rfl) 51.5074 (-0.1278)]
    rfl
  · rw [setCenter_handleMarker]
    exact Option.some_ne_none _

/-- Claim C8 (amended): while no centre is set, `setRadius` raises no
error and changes nothing except the stored radius and the form fields —
in particular no circle and no handle are created, deferring all visual
updates; `setCenter` is the call that then provides the centre and
immediately draws the circle and places the handle. -/
theorem c8_amended_no_center_defers_visuals (w : World) (h : w.center = none)
    (r lat lng : ℝ) :
    setRadius w r = { w with radius := r, sliderValue := r, displayValue := r } ∧
    (setCenter w lat lng).center = some { lat := lat, lng := lng } ∧
    (∃ rest, (setCenter w lat lng).mapCircles =
      { id := w.nextId, center := { lat := lat, lng := lng },
        radiusMeters := w.radius * 1609.34 } :: rest) ∧
    (setCenter w lat lng).handleMarker =
      some (handleLatLng { lat := lat, lng := lng } w.radius) := by
  refine ⟨setRadius_of_center_none h r, setCenter_center w lat lng, ?_,
    setCenter_handleMarker w lat lng⟩
  unfold setCenter
  rw [(updateHandlePosition_fields _).1]
  exact ⟨_, rfl⟩

/-- Claim C8 witness: the amended statement at the fresh state, radius 50
and the London coordinates. -/
theorem c8_witness :
    setRadius initWorld 50 =
      { initWorld with radius := 50, sliderValue := 50, displayValue := 50 } ∧
    (setCenter initWorld 51.5074 (-0.1278)).center =
      some { lat := 51.5074, lng := -0.1278 } ∧
    (∃ rest, (setCenter initWorld 51.5074 (-0.1278)).mapCircles =
      { id := initWorld.nextId, center := { lat := 51.5074, lng := -0.1278 },
        radiusMeters := initWorld.radius * 1609.34 } :: rest) ∧
    (setCenter initWorld 51.5074 (-0.1278)).handleMarker =
      some (handleLatLng { lat := 51.5074, lng := -0.1278 } initWorld.radius) :=
  c8_amended_no_center_defers_visuals initWorld rfl 50 51.5074 (-0.1278)

/-- Claim C9: for a time-sorted input-event sequence, every
`/location-suggest` request comes from a fired debounce timer whose query
has length at least 2 (shorter queries never reach the fetch), the query
is one the user actually typed, and no later input event occurs within
the 300 ms debounce window after the firing event. -/
theorem c9_debounced_requests (events : List InputEvent)
    (hs : events.Pairwise (fun a b => a.1 < b.1)) :
    ∀ e ∈ suggestRequests events,
      2 ≤ e.2.length ∧ e ∈ events ∧
      ∀ f ∈ events, e.1 < f.1 → e.1 + 300 ≤ f.1 := by
  intro e he
  unfold suggestRequests at he
  have hmf := List.mem_filter.mp he
  refine ⟨of_decide_eq_true hmf.2, mem_of_mem_debounceFires events e hmf.1,
    debounceFires_gap events hs e hmf.1⟩

/-- Claim C9 witness: on the keystroke trace `(0, "L"), (100, "Lo"),
(1000, "Lon")` the request for `"Lo"` fires (the `"L"` timer is
superseded) and satisfies the guarantees. -/
theorem c9_witness :
    2 ≤ (((100 : ℕ), "Lo") : InputEvent).2.length ∧
    (((100 : ℕ), "Lo") : InputEvent) ∈
      ([((0 : ℕ), "L"), (100, "Lo"), (1000, "Lon")] : List InputEvent) ∧
    ∀ f ∈ ([((0 : ℕ), "L"), (100, "Lo"), (1000, "Lon")] : List InputEvent),
      (((100 : ℕ), "Lo") : InputEvent).1 < f.1 →
      (((100 : ℕ), "Lo") : InputEvent).1 + 300 ≤ f.1 :=
  c9_debounced_requests [((0 : ℕ), "L"), (100, "Lo"), (1000, "Lon")]
    (by decide) ((100 : ℕ), "Lo") (by decide)

/-- Claim C10: the success-rendering path `displayResults` and the
tab-switching path `switchTab` both invoke `show()` on the
`DistanceCircleManager` instance whenever its centre is set, yet the
class defines no `show` method — only `hide` and `destroy` exist — so the
call resolves to no defined operation of the control. -/
theorem c10_show_method_missing (b : Bool) (hb : b = true) :
    "show" ∈ displayResultsManagerCalls b ∧
    "show" ∈ switchTabManagerCalls b ∧
    "show" ∉ distanceCircleManagerMethods ∧
    "hide" ∈ distanceCircleManagerMethods ∧
    "destroy" ∈ distanceCircleManagerMethods := by
  subst hb
  decide

/-- Claim C10 witness: the statement at `centerSet = true`. -/
theorem c10_witness :
    "show" ∈ displayResultsManagerCalls true ∧
    "show" ∈ switchTabManagerCalls true ∧
    "show" ∉ distanceCircleManagerMethods ∧
    "hide" ∈ distanceCircleManagerMethods ∧
    "destroy" ∈ distanceCircleManagerMethods :=
  c10_show_method_missing true rfl

/-!  Spherical-geometry lemmas: the destination point computed by
`updateHandlePosition` lies at exactly `radius * 1609.34` metres of
haversine distance from the centre, and strictly east of it. -/

lemma sin_mul_cos_le_one (a b : ℝ) :
    -1 ≤ Real.sin a * Real.cos b ∧ Real.sin a * Real.cos b ≤ 1 := by
  constructor <;>
    nlinarith [Real.sin_sq_le_one a, Real.cos_sq_le_one b,
      sq_nonneg (Real.sin a + Real.cos b), sq_nonneg (Real.sin a - Real.cos b)]

lemma atan2_pos_of_pos {y x : ℝ} (hy : 0 < y) (hx : 0 < x) : 0 < atan2 y x := by
  rw [atan2, if_pos hx]
  have h : (0 : ℝ) < y / x := div_pos hy hx
  have := Real.arctan_strictMono h
  rwa [Real.arctan_zero] at this

lemma cos_atan2_of_pos {y x : ℝ} (hx : 0 < x) :
    Real.cos (atan2 y x) = x / Real.sqrt (x ^ 2 + y ^ 2) := by
  rw [atan2, if_pos hx, Real.cos_arctan]
  have hxy : Real.sqrt (1 + (y / x) ^ 2) = Real.sqrt (x ^ 2 + y ^ 2) / x := by
    rw [show (1 + (y / x) ^ 2) = (x ^ 2 + y ^ 2) / x ^ 2 by
        field_simp]
    rw [Real.sqrt_div (by positivity) _, Real.sqrt_sq hx.le]
  rw [hxy]
  rw [one_div, inv_div]

-- central-angle identity for bearing 90 degrees
lemma central_angle_east (lat1 sigma : ℝ)
    (h1 : -(π / 2) < lat1) (h2 : lat1 < π / 2)
    (hs1 : 0 < sigma) (hs2 : sigma < π / 2) :
    Real.sin lat1 * Real.sin (Real.arcsin (Real.sin lat1 * Real.cos sigma)) +
      Real.cos lat1 * Real.cos (Real.arcsin (Real.sin lat1 * Real.cos sigma)) *
        Real.cos (atan2 (Real.sin sigma * Real.cos lat1)
          (Real.cos sigma - Real.sin lat1 *
            Real.sin (Real.arcsin (Real.sin lat1 * Real.cos sigma)))) =
      Real.cos sigma ∧
    0 < atan2 (Real.sin sigma * Real.cos lat1)
      (Real.cos sigma - Real.sin lat1 *
        Real.sin (Real.arcsin (Real.sin lat1 * Real.cos sigma))) := by
  have hc1 : 0 < Real.cos lat1 := Real.cos_pos_of_mem_Ioo ⟨h1, h2⟩
  have hcs : 0 < Real.cos sigma :=
    Real.cos_pos_of_mem_Ioo ⟨by linarith [Real.pi_pos], hs2⟩
  have hss : 0 < Real.sin sigma :=
    Real.sin_pos_of_pos_of_lt_pi hs1 (by linarith [Real.pi_pos])
  have hb := sin_mul_cos_le_one lat1 sigma
  have hsin2 : Real.sin (Real.arcsin (Real.sin lat1 * Real.cos sigma)) =
      Real.sin lat1 * Real.cos sigma := Real.sin_arcsin hb.1 hb.2
  have hcos2 : Real.cos (Real.arcsin (Real.sin lat1 * Real.cos sigma)) =
      Real.sqrt (1 - (Real.sin lat1 * Real.cos sigma) ^ 2) :=
    Real.cos_arcsin _
  have p1 := Real.sin_sq_add_cos_sq lat1
  have p2 := Real.sin_sq_add_cos_sq sigma
  have key1 : 1 - (Real.sin lat1 * Real.cos sigma) ^ 2 =
      Real.sin sigma ^ 2 + Real.cos sigma ^ 2 * Real.cos lat1 ^ 2 := by
    nlinarith [p1, p2]
  have hxval : Real.cos sigma - Real.sin lat1 *
      Real.sin (Real.arcsin (Real.sin lat1 * Real.cos sigma)) =
      Real.cos sigma * Real.cos lat1 ^ 2 := by
    rw [hsin2]
    nlinarith [p1]
  have hx : 0 < Real.cos sigma * Real.cos lat1 ^ 2 := by positivity
  have hy : 0 < Real.sin sigma * Real.cos lat1 := by positivity
  rw [hxval]
  constructor
  · rw [cos_atan2_of_pos hx, hsin2, hcos2]
    have hx2y2 : (Real.cos sigma * Real.cos lat1 ^ 2) ^ 2 +
        (Real.sin sigma * Real.cos lat1) ^ 2 =
        Real.cos lat1 ^ 2 * (1 - (Real.sin lat1 * Real.cos sigma) ^ 2) := by
      nlinarith [p1, p2]
    rw [hx2y2]
    have hq : 0 < 1 - (Real.sin lat1 * Real.cos sigma) ^ 2 := by
      rw [key1]; positivity
    have hsqrt : Real.sqrt (Real.cos lat1 ^ 2 *
        (1 - (Real.sin lat1 * Real.cos sigma) ^ 2)) =
        Real.cos lat1 * Real.sqrt (1 - (Real.sin lat1 * Real.cos sigma) ^ 2) := by
      rw [Real.sqrt_mul (sq_nonneg _), Real.sqrt_sq hc1.le]
    rw [hsqrt]
    have hsq : 0 < Real.sqrt (1 - (Real.sin lat1 * Real.cos sigma) ^ 2) :=
      Real.sqrt_pos.mpr hq
    field_simp
    linear_combination Real.cos sigma * p1
  · exact atan2_pos_of_pos hy hx

lemma atan2_sin_cos_eq {u : ℝ} (h1 : -(π / 2) < u) (h2 : u < π / 2) :
    atan2 (Real.sin u) (Real.cos u) = u := by
  have hc : 0 < Real.cos u := Real.cos_pos_of_mem_Ioo ⟨h1, h2⟩
  rw [atan2, if_pos hc, ← Real.tan_eq_sin_div_cos, Real.arctan_tan h1 h2]

lemma haversine_core (lat1 sigma : ℝ)
    (h1 : -(π / 2) < lat1) (h2 : lat1 < π / 2)
    (hs1 : 0 < sigma) (hs2 : sigma < π / 2) :
    Real.sin ((Real.arcsin (Real.sin lat1 * Real.cos sigma) - lat1) / 2) ^ 2 +
      Real.cos lat1 * Real.cos (Real.arcsin (Real.sin lat1 * Real.cos sigma)) *
        Real.sin ((atan2 (Real.sin sigma * Real.cos lat1)
          (Real.cos sigma - Real.sin lat1 *
            Real.sin (Real.arcsin (Real.sin lat1 * Real.cos sigma)))) / 2) ^ 2 =
      Real.sin (sigma / 2) ^ 2 := by
  have hcent := (central_angle_east lat1 sigma h1 h2 hs1 hs2).1
  set A := Real.arcsin (Real.sin lat1 * Real.cos sigma) with hA
  set D := atan2 (Real.sin sigma * Real.cos lat1)
    (Real.cos sigma - Real.sin lat1 * Real.sin A) with hD
  have e1 : Real.cos (2 * ((A - lat1) / 2)) = Real.cos (A - lat1) :=
    congrArg Real.cos (by ring)
  have e2 : Real.cos (2 * (D / 2)) = Real.cos D := congrArg Real.cos (by ring)
  have e3 : Real.cos (2 * (sigma / 2)) = Real.cos sigma := congrArg Real.cos (by ring)
  rw [Real.sin_sq_eq_half_sub, Real.sin_sq_eq_half_sub, Real.sin_sq_eq_half_sub,
    e1, e2, e3, Real.cos_sub]
  linear_combination (-(1 : ℝ) / 2) * hcent

lemma haversine_of_dest (lat1 lng1 sigma : ℝ)
    (h1 : -(π / 2) < lat1) (h2 : lat1 < π / 2)
    (hs1 : 0 < sigma) (hs2 : sigma < π / 2) :
    haversineMeters { lat := lat1 * 180 / π, lng := lng1 * 180 / π }
      { lat := Real.arcsin (Real.sin lat1 * Real.cos sigma) * 180 / π,
        lng := (lng1 + atan2 (Real.sin sigma * Real.cos lat1)
          (Real.cos sigma - Real.sin lat1 *
            Real.sin (Real.arcsin (Real.sin lat1 * Real.cos sigma)))) * 180 / π } =
      6378137 * sigma := by
  have hpi := Real.pi_pos
  have hpne := Real.pi_ne_zero
  set A := Real.arcsin (Real.sin lat1 * Real.cos sigma) with hA
  set D := atan2 (Real.sin sigma * Real.cos lat1)
    (Real.cos sigma - Real.sin lat1 * Real.sin A) with hD
  have e1 : lat1 * 180 / π * π / 180 = lat1 := by field_simp
  have e2 : A * 180 / π * π / 180 = A := by field_simp
  have e3 : (A * 180 / π - lat1 * 180 / π) * π / 180 = A - lat1 := by
    field_simp
    try ring
  have e4 : ((lng1 + D) * 180 / π - lng1 * 180 / π) * π / 180 = D := by
    field_simp
    try ring
  have hu1 : (0 : ℝ) < sigma / 2 := by linarith
  have hu2 : sigma / 2 < π / 2 := by linarith
  have hsinn : 0 ≤ Real.sin (sigma / 2) :=
    Real.sin_nonneg_of_nonneg_of_le_pi hu1.le (by linarith)
  have hcosn : 0 ≤ Real.cos (sigma / 2) :=
    Real.cos_nonneg_of_mem_Icc ⟨by linarith, by linarith⟩
  have hone : (1 : ℝ) - Real.sin (sigma / 2) ^ 2 = Real.cos (sigma / 2) ^ 2 := by
    linear_combination -Real.sin_sq_add_cos_sq (sigma / 2)
  simp only [haversineMeters]
  rw [e1, e2, e3, e4]
  rw [haversine_core lat1 sigma h1 h2 hs1 hs2, hone,
    Real.sqrt_sq hsinn, Real.sqrt_sq hcosn,
    atan2_sin_cos_eq (by linarith : -(π / 2) < sigma / 2) hu2]
  ring

lemma handleLatLng_simplified (c : GeoPoint) (r : ℝ) :
    handleLatLng c r =
      { lat := Real.arcsin (Real.sin (c.lat * π / 180) *
          Real.cos (r * 1609.34 / 6378137)) * 180 / π,
        lng := (c.lng * π / 180 + atan2
          (Real.sin (r * 1609.34 / 6378137) * Real.cos (c.lat * π / 180))
          (Real.cos (r * 1609.34 / 6378137) - Real.sin (c.lat * π / 180) *
            Real.sin (Real.arcsin (Real.sin (c.lat * π / 180) *
              Real.cos (r * 1609.34 / 6378137))))) * 180 / π } := by
  unfold handleLatLng
  simp only [Real.cos_pi_div_two, Real.sin_pi_div_two, mul_zero, add_zero, one_mul]

lemma haversineMeters_handleLatLng (la ln r : ℝ)
    (hlat1 : -90 < la) (hlat2 : la < 90) (hr1 : 0 < r) (hr2 : r ≤ 200) :
    haversineMeters { lat := la, lng := ln }
      (handleLatLng { lat := la, lng := ln } r) = r * 1609.34 := by
  have hpi := Real.pi_pos
  have hpne := Real.pi_ne_zero
  have hb1 : -(π / 2) < la * π / 180 := by nlinarith
  have hb2 : la * π / 180 < π / 2 := by nlinarith
  have hs1 : 0 < r * 1609.34 / 6378137 := by positivity
  have hs2 : r * 1609.34 / 6378137 < π / 2 := by nlinarith [Real.pi_gt_three]
  have hc : ({ lat := la, lng := ln } : GeoPoint) =
      { lat := la * π / 180 * 180 / π, lng := ln * π / 180 * 180 / π } := by
    rw [GeoPoint.mk.injEq]
    constructor <;> field_simp
  simp only [handleLatLng_simplified]
  conv_lhs => rw [hc]
  rw [haversine_of_dest (la * π / 180) (ln * π / 180) (r * 1609.34 / 6378137)
    hb1 hb2 hs1 hs2]
  field_simp

lemma handleLatLng_lng_gt (la ln r : ℝ)
    (hlat1 : -90 < la) (hlat2 : la < 90) (hr1 : 0 < r) (hr2 : r ≤ 200) :
    ln < (handleLatLng { lat := la, lng := ln } r).lng := by
  have hpi := Real.pi_pos
  have hpne := Real.pi_ne_zero
  have hb1 : -(π / 2) < la * π / 180 := by nlinarith
  have hb2 : la * π / 180 < π / 2 := by nlinarith
  have hs1 : 0 < r * 1609.34 / 6378137 := by positivity
  have hs2 : r * 1609.34 / 6378137 < π / 2 := by nlinarith [Real.pi_gt_three]
  have hD := (central_angle_east (la * π / 180) (r * 1609.34 / 6378137)
    hb1 hb2 hs1 hs2).2
  simp only [handleLatLng_simplified]
  have hexp : (ln * π / 180 + atan2
      (Real.sin (r * 1609.34 / 6378137) * Real.cos (la * π / 180))
      (Real.cos (r * 1609.34 / 6378137) - Real.sin (la * π / 180) *
        Real.sin (Real.arcsin (Real.sin (la * π / 180) *
          Real.cos (r * 1609.34 / 6378137))))) * 180 / π =
      ln + (atan2
      (Real.sin (r * 1609.34 / 6378137) * Real.cos (la * π / 180))
      (Real.cos (r * 1609.34 / 6378137) - Real.sin (la * π / 180) *
        Real.sin (Real.arcsin (Real.sin (la * π / 180) *
          Real.cos (r * 1609.34 / 6378137))))) * 180 / π := by
    field_simp
    try ring
  rw [hexp]
  have hpos : 0 < (atan2
      (Real.sin (r * 1609.34 / 6378137) * Real.cos (la * π / 180))
      (Real.cos (r * 1609.34 / 6378137) - Real.sin (la * π / 180) *
        Real.sin (Real.arcsin (Real.sin (la * π / 180) *
          Real.cos (r * 1609.34 / 6378137))))) * 180 / π :=
    div_pos (mul_pos hD (by norm_num)) hpi
  linarith

lemma two_atan2_sqrt (sigma : ℝ) (h1 : 0 < sigma) (h2 : sigma < π / 2) :
    2 * atan2 (Real.sqrt (Real.sin (sigma / 2) ^ 2))
      (Real.sqrt (1 - Real.sin (sigma / 2) ^ 2)) = sigma := by
  have hpi := Real.pi_pos
  have hsinn : 0 ≤ Real.sin (sigma / 2) :=
    Real.sin_nonneg_of_nonneg_of_le_pi (by linarith) (by linarith)
  have hcosn : 0 ≤ Real.cos (sigma / 2) :=
    Real.cos_nonneg_of_mem_Icc ⟨by linarith, by linarith⟩
  have hone : (1 : ℝ) - Real.sin (sigma / 2) ^ 2 = Real.cos (sigma / 2) ^ 2 := by
    linear_combination -Real.sin_sq_add_cos_sq (sigma / 2)
  rw [hone, Real.sqrt_sq hsinn, Real.sqrt_sq hcosn,
    atan2_sin_cos_eq (by linarith : -(π / 2) < sigma / 2) (by linarith)]
  ring

lemma haversine_equator_east (sigma : ℝ) (h1 : 0 < sigma) (h2 : sigma < π / 2) :
    haversineMeters { lat := 0, lng := 0 } { lat := 0, lng := sigma * 180 / π } =
      6378137 * sigma := by
  have hpi := Real.pi_pos
  have hpne := Real.pi_ne_zero
  have ed : (sigma * 180 / π - 0) * π / 180 = sigma := by
    field_simp
    try ring
  simp only [haversineMeters]
  rw [ed]
  norm_num
  rw [two_atan2_sqrt sigma h1 h2]

lemma haversine_equator_west (sigma : ℝ) (h1 : 0 < sigma) (h2 : sigma < π / 2) :
    haversineMeters { lat := 0, lng := 0 } { lat := 0, lng := -(sigma * 180 / π) } =
      6378137 * sigma := by
  have hpi := Real.pi_pos
  have hpne := Real.pi_ne_zero
  have ed : (-(sigma * 180 / π) - 0) * π / 180 = -sigma := by
    field_simp
    try ring
  simp only [haversineMeters]
  rw [ed]
  norm_num [neg_div, Real.sin_neg, neg_sq]
  rw [two_atan2_sqrt sigma h1 h2]

namespace DistanceCircleManager

lemma updateFormSlider_handleTooltip (w : World) :
    (updateFormSlider w).handleTooltip = w.handleTooltip := rfl

lemma setRadius_center (w : World) (r : ℝ) :
    (setRadius w r).center = w.center := by
  unfold setRadius
  rw [(updateFormSlider_fields _).2.2.1, (updateHandlePosition_fields _).2.2.1,
    updateCircle_center]

lemma setRadius_handle_of_center_some {w : World} {c : GeoPoint}
    (h : w.center = some c) (r : ℝ) :
    (setRadius w r).handleMarker = some (handleLatLng c r) ∧
    (setRadius w r).handleTooltip = some (r, " miles") := by
  unfold setRadius
  have hc : (updateCircle { w with radius := r }).center = some c := by
    rw [updateCircle_center]
    exact h
  have hr : (updateCircle { w with radius := r }).radius = r :=
    updateCircle_radius _
  obtain ⟨hm, ht⟩ := updateHandlePosition_handle_of_center_some hc
  constructor
  · rw [(updateFormSlider_fields _).2.2.2.2.1, hm, hr]
  · rw [updateFormSlider_handleTooltip, ht, hr]

end DistanceCircleManager

lemma clamp_round_eq {d : ℝ} (h1 : 1 ≤ d) (h2 : d ≤ 200) :
    max 1 (min 200 ((round d : ℤ) : ℝ)) = ((round d : ℤ) : ℝ) := by
  have hl : (1 : ℤ) ≤ round d := by
    rw [round_eq]
    exact Int.le_floor.mpr (by push_cast; linarith)
  have hu : round d ≤ 200 := by
    rw [round_eq]
    have hlt : (⌊d + 1 / 2⌋ : ℤ) < 201 := Int.floor_lt.mpr (by push_cast; linarith)
    linarith
  rw [min_eq_right (by exact_mod_cast hu), max_eq_right (by exact_mod_cast hl)]

/-- Claim C3: with a centre set, dragging the handle to a point at
haversine distance `d * 1609.34` metres (that is, `d` miles) for
`d ∈ [1, 200]` stores radius `round d`, and any two drag points at the
same distance from the centre — whatever their bearing — produce the same
stored radius. -/
theorem c3_drag_rounds_distance (w : World) (c p q : GeoPoint) (d : ℝ)
    (hcen : w.center = some c) (hd1 : 1 ≤ d) (hd2 : d ≤ 200)
    (hdist : haversineMeters c p = d * 1609.34)
    (hsame : haversineMeters c q = haversineMeters c p) :
    (DistanceCircleManager.onHandleDrag w p).radius = ((round d : ℤ) : ℝ) ∧
    (DistanceCircleManager.onHandleDrag w q).radius =
      (DistanceCircleManager.onHandleDrag w p).radius := by
  have heta : ({ lat := c.lat, lng := c.lng } : GeoPoint) = c := rfl
  have hdiv : haversineMeters c p / 1609.34 = d := by
    rw [hdist, mul_div_cancel_right₀ _ (by norm_num : (1609.34 : ℝ) ≠ 0)]
  constructor
  · simp only [DistanceCircleManager.onHandleDrag, hcen, heta]
    rw [DistanceCircleManager.setRadius_radius, hdiv, clamp_round_eq hd1 hd2]
  · simp only [DistanceCircleManager.onHandleDrag, hcen, heta]
    rw [DistanceCircleManager.setRadius_radius, DistanceCircleManager.setRadius_radius,
      hsame]

/-- Claim C3 witness: from the centre `(0, 0)`, dragging to the point
100 miles due east along the equator and to the point 100 miles due west
both store radius `round 100`. -/
theorem c3_witness :
    (DistanceCircleManager.onHandleDrag (DistanceCircleManager.setCenter
        DistanceCircleManager.initWorld 0 0)
      { lat := 0, lng := 100 * 1609.34 / 6378137 * 180 / π }).radius =
      ((round (100 : ℝ) : ℤ) : ℝ) ∧
    (DistanceCircleManager.onHandleDrag (DistanceCircleManager.setCenter
        DistanceCircleManager.initWorld 0 0)
      { lat := 0, lng := -(100 * 1609.34 / 6378137 * 180 / π) }).radius =
      (DistanceCircleManager.onHandleDrag (DistanceCircleManager.setCenter
        DistanceCircleManager.initWorld 0 0)
      { lat := 0, lng := 100 * 1609.34 / 6378137 * 180 / π }).radius := by
  have hs1 : (0 : ℝ) < 100 * 1609.34 / 6378137 := by norm_num
  have hs2 : (100 : ℝ) * 1609.34 / 6378137 < π / 2 := by
    nlinarith [Real.pi_gt_three]
  exact c3_drag_rounds_distance _ { lat := 0, lng := 0 } _ _ 100
    (DistanceCircleManager.setCenter_center _ 0 0) (by norm_num) (by norm_num)
    (by rw [haversine_equator_east _ hs1 hs2]; norm_num)
    (by rw [haversine_equator_west _ hs1 hs2, haversine_equator_east _ hs1 hs2])

/-- Claim C4: after `setCenter` then `setRadius r` (centre strictly inside
the valid latitude range, `r ∈ [1, 200]`), the handle marker sits at the
point computed by the spec's spherical direct-geodesic formula with
bearing `θ = π/2` (due east), Earth radius `R = 6378137` metres and
distance `d = r * 1609.34` metres; that point lies at exactly
`r * 1609.34` metres of haversine distance from the centre (so within
±1 mile of `r`) and strictly east of it, and the handle label is the
interpolation of the radius `r` with `" miles"`. -/
theorem c4_handle_east_formula (w : World) (la ln r : ℝ)
    (h1 : -90 < la) (h2 : la < 90) (hr1 : 1 ≤ r) (hr2 : r ≤ 200) :
    (DistanceCircleManager.setRadius
        (DistanceCircleManager.setCenter w la ln) r).handleMarker =
      some (handleLatLng { lat := la, lng := ln } r) ∧
    handleLatLng { lat := la, lng := ln } r =
      { lat := (specDestination (la * π / 180) (ln * π / 180) (r * 1609.34)
          6378137 (π / 2)).lat * 180 / π,
        lng := (specDestination (la * π / 180) (ln * π / 180) (r * 1609.34)
          6378137 (π / 2)).lng * 180 / π } ∧
    haversineMeters { lat := la, lng := ln }
      (handleLatLng { lat := la, lng := ln } r) = r * 1609.34 ∧
    ln < (handleLatLng { lat := la, lng := ln } r).lng ∧
    (DistanceCircleManager.setRadius
        (DistanceCircleManager.setCenter w la ln) r).handleTooltip =
      some (r, " miles") := by
  refine ⟨(DistanceCircleManager.setRadius_handle_of_center_some
      (DistanceCircleManager.setCenter_center w la ln) r).1, ?_,
    haversineMeters_handleLatLng la ln r h1 h2 (by linarith) hr2,
    handleLatLng_lng_gt la ln r h1 h2 (by linarith) hr2,
    (DistanceCircleManager.setRadius_handle_of_center_some
      (DistanceCircleManager.setCenter_center w la ln) r).2⟩
  rfl

/-- Claim C4 witness: the London scenario — centre `(51.5074, -0.1278)`,
radius 50 miles. -/
theorem c4_witness :
    (DistanceCircleManager.setRadius (DistanceCircleManager.setCenter
        DistanceCircleManager.initWorld 51.5074 (-0.1278)) 50).handleMarker =
      some (handleLatLng { lat := 51.5074, lng := -0.1278 } 50) ∧
    handleLatLng { lat := 51.5074, lng := -0.1278 } 50 =
      { lat := (specDestination (51.5074 * π / 180) (-0.1278 * π / 180)
          (50 * 1609.34) 6378137 (π / 2)).lat * 180 / π,
        lng := (specDestination (51.5074 * π / 180) (-0.1278 * π / 180)
          (50 * 1609.34) 6378137 (π / 2)).lng * 180 / π } ∧
    haversineMeters { lat := 51.5074, lng := -0.1278 }
      (handleLatLng { lat := 51.5074, lng := -0.1278 } 50) = 50 * 1609.34 ∧
    (-0.1278 : ℝ) < (handleLatLng { lat := 51.5074, lng := -0.1278 } 50).lng ∧
    (DistanceCircleManager.setRadius (DistanceCircleManager.setCenter
        DistanceCircleManager.initWorld 51.5074 (-0.1278)) 50).handleTooltip =
      some (50, " miles") :=
  c4_handle_east_formula DistanceCircleManager.initWorld 51.5074 (-0.1278) 50
    (by norm_num) (by norm_num) (by norm_num) (by norm_num)

/-- Claim C5: for an in-range centre and an integer radius `r ∈ [1, 200]`,
setting the centre and the radius places the handle by the forward
formula, and dragging the handle back onto its own position — reading the
distance with the inverse haversine and rounding to whole miles —
reproduces exactly the stored radius `r`. -/
theorem c5_roundtrip (w : World) (la ln : ℝ) (r : ℤ)
    (h1 : -90 < la) (h2 : la < 90) (hr1 : 1 ≤ r) (hr2 : r ≤ 200) :
    (DistanceCircleManager.setRadius
        (DistanceCircleManager.setCenter w la ln) (r : ℝ)).handleMarker =
      some (handleLatLng { lat := la, lng := ln } (r : ℝ)) ∧
    (DistanceCircleManager.onHandleDrag
        (DistanceCircleManager.setRadius
          (DistanceCircleManager.setCenter w la ln) (r : ℝ))
        (handleLatLng { lat := la, lng := ln } (r : ℝ))).radius = (r : ℝ) := by
  have hrr1 : (1 : ℝ) ≤ (r : ℝ) := by exact_mod_cast hr1
  have hrr2 : ((r : ℝ)) ≤ 200 := by exact_mod_cast hr2
  have hcen2 : (DistanceCircleManager.setRadius
      (DistanceCircleManager.setCenter w la ln) (r : ℝ)).center =
      some { lat := la, lng := ln } := by
    rw [DistanceCircleManager.setRadius_center,
      DistanceCircleManager.setCenter_center]
  refine ⟨(DistanceCircleManager.setRadius_handle_of_center_some
    (DistanceCircleManager.setCenter_center w la ln) (r : ℝ)).1, ?_⟩
  simp only [DistanceCircleManager.onHandleDrag, hcen2]
  rw [DistanceCircleManager.setRadius_radius,
    haversineMeters_handleLatLng la ln (r : ℝ) h1 h2 (by linarith) hrr2,
    mul_div_cancel_right₀ _ (by norm_num : (1609.34 : ℝ) ≠ 0),
    round_intCast,
    min_eq_right hrr2, max_eq_right hrr1]

/-- Claim C5 witness: centre London, radius 50 miles: the set-radius →
read-handle-distance round trip returns 50. -/
theorem c5_witness :
    (DistanceCircleManager.setRadius
        (DistanceCircleManager.setCenter DistanceCircleManager.initWorld
          51.5074 (-0.1278)) ((50 : ℤ) : ℝ)).handleMarker =
      some (handleLatLng { lat := 51.5074, lng := -0.1278 } ((50 : ℤ) : ℝ)) ∧
    (DistanceCircleManager.onHandleDrag
        (DistanceCircleManager.setRadius
          (DistanceCircleManager.setCenter DistanceCircleManager.initWorld
            51.5074 (-0.1278)) ((50 : ℤ) : ℝ))
        (handleLatLng { lat := 51.5074, lng := -0.1278 } ((50 : ℤ) : ℝ))).radius =
      ((50 : ℤ) : ℝ) :=
  c5_roundtrip DistanceCircleManager.initWorld 51.5074 (-0.1278) 50
    (by norm_num) (by norm_num) (by norm_num) (by norm_num)
